import Mathlib

/-!
Shallow embedding of the voice-transcriber extension core
(WhisperService, StorageService, OpenAIService, AudioRecorderService,
VoiceTranscriberPanel._handleTranscription) and proofs of the spec claims.

Buffers are modelled as lists of bytes (`List Nat`), the network as an
explicit oracle mapping each outbound request to a response, and each
fallible operation returns the list of requests it issued together with an
`Except` result, so that call counts and orderings are observable.
-/

/-- Transcriber settings record; the TS union types for `provider` and
`cleanupModel` are strings, embedded as `String`. -/
structure TranscriberSettings where
  provider : String
  localApiUrl : String
  language : String
  enableCleanup : Bool
  cleanupModel : String
deriving DecidableEq, Repr

/-- Default settings from src/types/index.ts. -/
def defaultSettings : TranscriberSettings :=
  { provider := "openai"
    localApiUrl := "http://localhost:8000/v1/audio/transcriptions"
    language := ""
    enableCleanup := true
    cleanupModel := "gpt-4.1-nano" }

/-- JavaScript string truthiness for an optional string: `undefined` and the
empty string are falsy, every other string is truthy. -/
def optTruthy : Option String → Bool
  | none => false
  | some s => !(s == "")

/-- JavaScript `a || b` for an optional string `a` and default `b`:
falls through to `b` when `a` is absent or empty. -/
def jsOr (a : Option String) (b : String) : String :=
  match a with
  | none => b
  | some s => if s == "" then b else s

namespace WhisperService

/-- Size ceiling from whisperService.ts: 24 * 1024 * 1024 bytes. -/
def MAX_FILE_SIZE : Nat := 24 * 1024 * 1024

/-- JS `mimeType.includes(sub)`: substring containment. -/
def includes (s sub : String) : Bool := decide (sub.toList <:+: s.toList)

/-- Mirrors `getExtension`: priority substring match mp3/mpeg, webm, wav,
ogg, defaulting to mp3. -/
def getExtension (mimeType : String) : String :=
  if includes mimeType "mp3" || includes mimeType "mpeg" then "mp3"
  else if includes mimeType "webm" then "webm"
  else if includes mimeType "wav" then "wav"
  else if includes mimeType "ogg" then "ogg"
  else "mp3"

/-- One outbound multipart upload to a transcription endpoint, as built by
`transcribeSingle`: URL, optional bearer header, file name, raw bytes,
fixed model field, optional language field. -/
structure UploadRequest where
  url : String
  authBearer : Option String
  fileName : String
  fileBytes : List Nat
  model : String
  language : Option String
deriving DecidableEq, Repr

/-- Upstream HTTP response, with the JSON fields the code reads:
`ok`/`status`, the optional `error.message` of a failure body, and the
`text` field of a success body. -/
structure HttpResponse where
  ok : Bool
  status : Nat
  errorMessage : Option String
  text : String
deriving DecidableEq, Repr

/-- Network oracle: what the upstream endpoint answers to each request. -/
abbrev Oracle := UploadRequest → HttpResponse

/-- Request built by `transcribeSingle` before the `fetch` call. -/
def mkUploadRequest (audioBuffer : List Nat) (mimeType : String)
    (settings : TranscriberSettings) (apiKey : Option String) : UploadRequest :=
  { url := if settings.provider == "openai"
      then "https://api.openai.com/v1/audio/transcriptions"
      else settings.localApiUrl
    authBearer :=
      if optTruthy apiKey && settings.provider == "openai"
      then some ("Bearer " ++ apiKey.getD "")
      else none
    fileName := "audio." ++ getExtension mimeType
    fileBytes := audioBuffer
    model := "whisper-1"
    language := if settings.language == "" then none else some settings.language }

/-- Mirrors `transcribeSingle`: one upstream call; on a non-ok status the
error is the body message or a generic status-coded one; on success the
`text` field is returned. First component: the requests issued. -/
def transcribeSingle (oracle : Oracle) (audioBuffer : List Nat)
    (mimeType : String) (settings : TranscriberSettings)
    (apiKey : Option String) : List UploadRequest × Except String String :=
  let req := mkUploadRequest audioBuffer mimeType settings apiKey
  let resp := oracle req
  if resp.ok then ([req], .ok resp.text)
  else ([req], .error (jsOr resp.errorMessage
    ("Transcription failed with status " ++ toString resp.status)))

/-- Mirrors `splitBuffer`: repeatedly slice off `chunkSize` bytes.
The source loops forever when `chunkSize = 0` (never reached: the only
call site passes `MAX_FILE_SIZE`); the model returns `[]` there. -/
def splitBuffer (buffer : List Nat) (chunkSize : Nat) : List (List Nat) :=
  if _h : buffer.length = 0 ∨ chunkSize = 0 then []
  else buffer.take chunkSize :: splitBuffer (buffer.drop chunkSize) chunkSize
termination_by buffer.length
decreasing_by
  simp only [List.length_drop]
  omega

/-- Sequential loop of `transcribeChunked` over the chunk list: each chunk
goes through the single path in order; the first failure aborts the loop
(chunks after it issue no request). -/
def transcribeChunkedGo (oracle : Oracle) (mimeType : String)
    (settings : TranscriberSettings) (apiKey : Option String) :
    List (List Nat) → List UploadRequest × Except String (List String)
  | [] => ([], .ok [])
  | c :: rest =>
    match transcribeSingle oracle c mimeType settings apiKey with
    | (reqs, .error e) => (reqs, .error e)
    | (reqs, .ok t) =>
      match transcribeChunkedGo oracle mimeType settings apiKey rest with
      | (reqs2, .error e) => (reqs ++ reqs2, .error e)
      | (reqs2, .ok ts) => (reqs ++ reqs2, .ok (t :: ts))

/-- Mirrors `transcribeChunked`: split at `MAX_FILE_SIZE`, transcribe each
chunk in order, join the texts with a single space. -/
def transcribeChunked (oracle : Oracle) (audioBuffer : List Nat)
    (mimeType : String) (settings : TranscriberSettings)
    (apiKey : Option String) : List UploadRequest × Except String String :=
  match transcribeChunkedGo oracle mimeType settings apiKey
      (splitBuffer audioBuffer MAX_FILE_SIZE) with
  | (reqs, .error e) => (reqs, .error e)
  | (reqs, .ok ts) => (reqs, .ok (String.intercalate " " ts))

/-- Mirrors `transcribe`: missing-key check first (JS `!apiKey` truthiness,
only for the openai provider), then dispatch on the size ceiling. -/
def transcribe (oracle : Oracle) (apiKey : Option String)
    (audioBuffer : List Nat) (mimeType : String)
    (settings : TranscriberSettings) : List UploadRequest × Except String String :=
  if settings.provider == "openai" && !(optTruthy apiKey) then
    ([], .error "Please enter your OpenAI API key in Settings.")
  else if MAX_FILE_SIZE < audioBuffer.length then
    transcribeChunked oracle audioBuffer mimeType settings apiKey
  else
    transcribeSingle oracle audioBuffer mimeType settings apiKey

/-- Oracle used in the C1 witness: every chunk transcribes successfully,
the 24 MiB chunk to foo, anything else to bar. -/
def fooBarOracle : Oracle := fun r =>
  { ok := true, status := 200, errorMessage := none,
    text := if r.fileBytes.length == 24 * 1024 * 1024 then "foo" else "bar" }

/-- Oracle used in the C2 witness: status 200 with text hello world. -/
def helloOracle : Oracle := fun _ =>
  { ok := true, status := 200, errorMessage := none, text := "hello world" }

/-- Oracle used in the C3 witness: every call fails with error boom. -/
def boomOracle : Oracle := fun _ =>
  { ok := false, status := 500, errorMessage := some "boom", text := "" }

end WhisperService

namespace StorageService

/-- History entry record from src/types/index.ts. -/
structure HistoryEntry where
  id : String
  date : String
  text : String
  preview : String
  duration : Nat
deriving DecidableEq, Repr

/-- Mirrors `addToHistory` on the stored list: `unshift` the new entry,
then `pop` (drop the tail element) when the length exceeds 10. -/
def addToHistory (history : List HistoryEntry) (entry : HistoryEntry) :
    List HistoryEntry :=
  let h := entry :: history
  if 10 < h.length then h.dropLast else h

/-- A `Partial<TranscriberSettings>` as JSON-persisted: each field present
or absent (JSON round-tripping drops `undefined` fields). -/
structure SavedSettings where
  provider : Option String := none
  localApiUrl : Option String := none
  language : Option String := none
  enableCleanup : Option Bool := none
  cleanupModel : Option String := none
deriving DecidableEq, Repr

/-- Mirrors `getSettings`: read the saved partial object (missing storage
key yields the empty object) and spread it over `defaultSettings`,
field by field. -/
def getSettings (stored : Option SavedSettings) : TranscriberSettings :=
  let saved := stored.getD {}
  { provider := saved.provider.getD defaultSettings.provider
    localApiUrl := saved.localApiUrl.getD defaultSettings.localApiUrl
    language := saved.language.getD defaultSettings.language
    enableCleanup := saved.enableCleanup.getD defaultSettings.enableCleanup
    cleanupModel := saved.cleanupModel.getD defaultSettings.cleanupModel }

/-- Sample history entry for the C5 witness. -/
def exEntry (n : Nat) : HistoryEntry :=
  { id := toString n, date := "2024-01-01", text := "t", preview := "t",
    duration := n }

end StorageService

namespace OpenAIService

/-- The fixed system instruction of `cleanupText`, verbatim. -/
def systemPrompt : String :=
  "You are a text cleanup assistant. Clean up the following transcribed speech:\n\n1. Remove filler words and verbal tics (um, uh, like, you know, I mean, so, basically, etc.)\n2. Remove repeated words and stutters\n3. Fix punctuation and capitalization\n4. Split into logical paragraphs\n5. Keep the original meaning and tone intact\n6. Output ONLY plain text - no markdown, no headers, no bullet points\n\nReturn only the cleaned text, nothing else."

/-- Outbound chat-completion request as built by `cleanupText`. -/
structure ChatRequest where
  url : String
  authBearer : String
  contentType : String
  model : String
  systemContent : String
  userContent : String
  temperature : ℚ
  maxTokens : Nat
deriving DecidableEq, Repr

/-- One element of the response `choices` array, keeping the
`message.content` field the code reads. -/
structure ChatChoice where
  content : String
deriving DecidableEq, Repr

/-- Chat-completion HTTP response with the fields the code reads. -/
structure ChatResponse where
  ok : Bool
  status : Nat
  errorMessage : Option String
  choices : List ChatChoice
deriving DecidableEq, Repr

/-- Cleanup network oracle. -/
abbrev ChatOracle := ChatRequest → ChatResponse

/-- JS `Math.ceil(n * 1.5)` for a natural `n`; `n * 1.5` is exact in
binary floating point, so this equals the ceiling of `3 * n / 2`. -/
def ceilThreeHalves (n : Nat) : Nat := (3 * n + 1) / 2

/-- Request built by `cleanupText` before the `fetch` call. -/
def mkChatRequest (apiKey : String) (rawText : String) (model : String) :
    ChatRequest :=
  { url := "https://api.openai.com/v1/chat/completions"
    authBearer := "Bearer " ++ apiKey
    contentType := "application/json"
    model := model
    systemContent := systemPrompt
    userContent := rawText
    temperature := 3 / 10
    maxTokens := ceilThreeHalves rawText.length + 500 }

/-- Mirrors `cleanupText`: missing-key guard, one chat-completion POST,
error body handling, and on success the first choice content. Reading
`choices[0]` of an empty array throws in JS; the model returns a
TypeError-tagged failure on that (unreached) path. First component: the
request issued, if any. -/
def cleanupText (oracle : ChatOracle) (apiKey : Option String)
    (rawText : String) (model : String) :
    Option ChatRequest × Except String String :=
  if !(optTruthy apiKey) then
    (none, .error "OpenAI API key required for text cleanup")
  else
    let req := mkChatRequest (apiKey.getD "") rawText model
    let resp := oracle req
    if resp.ok then
      match resp.choices with
      | c :: _ => (some req, .ok c.content)
      | [] => (some req, .error "TypeError: undefined choices")
    else
      (some req, .error (jsOr resp.errorMessage
        ("Cleanup failed with status " ++ toString resp.status)))

/-- Oracle used in the C9 witness: one successful choice. -/
def cleanChatOracle : ChatOracle := fun _ =>
  { ok := true, status := 200, errorMessage := none,
    choices := [{ content := "clean text" }] }

end OpenAIService


namespace AudioRecorderService

/-- Mutable fields of the recorder: live process handle (modelled as a
pid), temporary file path, recording flag, start timestamp. -/
structure RecorderState where
  process : Option Nat
  tempFile : Option String
  isRecording : Bool
  startTime : Nat
deriving DecidableEq, Repr

/-- Filesystem view: which paths currently exist (`fs.existsSync`). -/
abbrev FileSystem := String → Bool

/-- Mirrors the private `cleanup`: null the process and temp file, clear
the recording flag, zero the start time. -/
def cleanupState : RecorderState :=
  { process := none, tempFile := none, isRecording := false, startTime := 0 }

/-- Mirrors `cancel`: SIGKILL the process if present (recorded as the
signal trace), best-effort unlink of the temp file if it exists, then
reset the state. Returns (new state, new filesystem, signals sent). -/
def cancel (s : RecorderState) (fs : FileSystem) :
    RecorderState × FileSystem × List String :=
  let signals := match s.process with
    | some _ => ["SIGKILL"]
    | none => []
  let fs2 : FileSystem := match s.tempFile with
    | some f => if fs f then (fun g => if g == f then false else fs g) else fs
    | none => fs
  (cleanupState, fs2, signals)

/-- Mirrors `getIsRecording`. -/
def getIsRecording (s : RecorderState) : Bool := s.isRecording

/-- Mirrors `getElapsedTime`: zero when not recording, else wall-clock
milliseconds since start. -/
def getElapsedTime (s : RecorderState) (now : Nat) : Nat :=
  if !s.isRecording then 0 else now - s.startTime

/-- Recorder state used in the C7 witness: an active recording with a
live process and an existing temp file. -/
def wState : RecorderState :=
  { process := some 1, tempFile := some "/tmp/rec.wav",
    isRecording := true, startTime := 5 }

/-- Filesystem used in the C7 witness: only the temp file exists. -/
def wFs : FileSystem := fun g => g == "/tmp/rec.wav"

end AudioRecorderService

namespace VoiceTranscriberPanel

/-- Messages the panel posts to the webview during `_handleTranscription`
(the variants that method can emit). -/
inductive WebviewMsg where
  | transcriptionStart
  | transcriptionProgress (message : String)
  | transcriptionComplete (text : String) (cleaned : Option String)
  | transcriptionError (message : String)
deriving DecidableEq, Repr

/-- Observable outcome of one `_handleTranscription` run: webview posts in
order, warning popups, error popups, and whether the crash-recovery
session snapshot was cleared (`saveRecordingSession(null)`). -/
structure PanelOutcome where
  posts : List WebviewMsg
  warningsShown : List String
  errorsShown : List String
  sessionCleared : Bool
deriving DecidableEq, Repr

/-- Mirrors `_handleTranscription`, with the whisper call abstracted as
its emitted progress messages plus result, and the cleanup call as a
function of the raw text. A transcription failure posts and shows the
error without clearing the session; a cleanup failure only shows a
warning, still completes with the raw text, and clears the session. -/
def handleTranscription (settings : TranscriberSettings)
    (whisperProgress : List String)
    (whisperResult : Except String String)
    (cleanup : String → Except String String) : PanelOutcome :=
  let pre : List WebviewMsg :=
    WebviewMsg.transcriptionStart ::
      WebviewMsg.transcriptionProgress "Transcribing audio..." ::
        whisperProgress.map WebviewMsg.transcriptionProgress
  match whisperResult with
  | .error e =>
    { posts := pre ++ [WebviewMsg.transcriptionError e]
      warningsShown := []
      errorsShown := [e]
      sessionCleared := false }
  | .ok rawText =>
    if settings.enableCleanup && settings.provider == "openai" then
      match cleanup rawText with
      | .ok cleanedText =>
        { posts := pre ++ [WebviewMsg.transcriptionProgress "Cleaning up text...",
            WebviewMsg.transcriptionComplete rawText (some cleanedText)]
          warningsShown := []
          errorsShown := []
          sessionCleared := true }
      | .error _ =>
        { posts := pre ++ [WebviewMsg.transcriptionProgress "Cleaning up text...",
            WebviewMsg.transcriptionComplete rawText none]
          warningsShown := ["Text cleanup failed. Showing original transcription."]
          errorsShown := []
          sessionCleared := true }
    else
      { posts := pre ++ [WebviewMsg.transcriptionComplete rawText none]
        warningsShown := []
        errorsShown := []
        sessionCleared := true }

end VoiceTranscriberPanel

namespace WhisperService

theorem splitBuffer_nil (c : Nat) : splitBuffer [] c = [] := by
  rw [splitBuffer]; simp

theorem splitBuffer_cons (buffer : List Nat) (c : Nat) (hb : buffer.length ≠ 0)
    (hc : c ≠ 0) :
    splitBuffer buffer c = buffer.take c :: splitBuffer (buffer.drop c) c := by
  rw [splitBuffer]
  simp [hb, hc]

theorem splitBuffer_flatten (buffer : List Nat) (c : Nat) (hc : 0 < c) :
    (splitBuffer buffer c).flatten = buffer := by
  induction buffer, c using splitBuffer.induct with
  | case1 buffer c h =>
    rcases h with h | h
    · rw [List.length_eq_zero] at h
      subst h
      rw [splitBuffer_nil]
      rfl
    · omega
  | case2 buffer c h ih =>
    push_neg at h
    rw [splitBuffer_cons buffer c h.1 h.2]
    rw [List.flatten_cons, ih hc, List.take_append_drop]

theorem splitBuffer_length (buffer : List Nat) (c : Nat) (hc : 0 < c) :
    (splitBuffer buffer c).length = (buffer.length + c - 1) / c := by
  induction buffer, c using splitBuffer.induct with
  | case1 buffer c h =>
    rcases h with h | h
    · rw [List.length_eq_zero] at h
      subst h
      rw [splitBuffer_nil]
      simp only [List.length_nil]
      rw [Nat.div_eq_of_lt (by omega)]
    · omega
  | case2 buffer c h ih =>
    push_neg at h
    rw [splitBuffer_cons buffer c h.1 h.2, List.length_cons, ih hc,
      List.length_drop]
    rcases Nat.lt_or_ge c buffer.length with hlt | hge
    · have h3 : buffer.length - c + c - 1 = buffer.length - 1 - c + c := by omega
      have h4 : buffer.length + c - 1 = buffer.length - 1 - c + c + c := by omega
      rw [h3, h4, Nat.add_div_right _ hc, Nat.add_div_right _ hc,
        Nat.add_div_right _ hc]
    · have hd : buffer.length - c = 0 := by omega
      rw [hd, Nat.div_eq_of_lt (by omega)]
      have h5 : buffer.length + c - 1 = buffer.length - 1 + c := by omega
      rw [h5, Nat.add_div_right _ hc, Nat.div_eq_of_lt (by omega)]

theorem splitBuffer_mem_le (buffer : List Nat) (c : Nat) (hc : 0 < c) :
    ∀ l ∈ splitBuffer buffer c, l.length ≤ c := by
  induction buffer, c using splitBuffer.induct with
  | case1 buffer c h =>
    intro l hl
    rcases h with h | h
    · rw [List.length_eq_zero] at h
      subst h
      rw [splitBuffer_nil] at hl
      simp at hl
    · omega
  | case2 buffer c h ih =>
    push_neg at h
    intro l hl
    rw [splitBuffer_cons buffer c h.1 h.2] at hl
    rcases List.mem_cons.mp hl with rfl | hl2
    · simp [List.length_take]
    · exact ih hc l hl2

theorem splitBuffer_ne_nil (buffer : List Nat) (c : Nat) (hb : buffer.length ≠ 0)
    (hc : 0 < c) : splitBuffer buffer c ≠ [] := by
  rw [splitBuffer_cons buffer c hb (by omega)]
  simp

theorem splitBuffer_dropLast (buffer : List Nat) (c : Nat) (hc : 0 < c) :
    ∀ l ∈ (splitBuffer buffer c).dropLast, l.length = c := by
  induction buffer, c using splitBuffer.induct with
  | case1 buffer c h =>
    intro l hl
    rcases h with h | h
    · rw [List.length_eq_zero] at h
      subst h
      rw [splitBuffer_nil] at hl
      simp at hl
    · omega
  | case2 buffer c h ih =>
    push_neg at h
    intro l hl
    rw [splitBuffer_cons buffer c h.1 h.2] at hl
    by_cases hrest : (buffer.drop c).length = 0
    · have hnil : splitBuffer (buffer.drop c) c = [] := by
        rw [List.length_eq_zero.mp hrest, splitBuffer_nil]
      rw [hnil] at hl
      simp at hl
    · have hne := splitBuffer_ne_nil (buffer.drop c) c hrest hc
      rw [List.dropLast_cons_of_ne_nil hne] at hl
      rcases List.mem_cons.mp hl with rfl | hl2
      · rw [List.length_take]
        rw [List.length_drop] at hrest
        omega
      · exact ih hc l hl2

theorem transcribe_eq_chunked (oracle : Oracle) (apiKey : Option String)
    (buf : List Nat) (mimeType : String) (settings : TranscriberSettings)
    (hkey : (settings.provider == "openai" && !(optTruthy apiKey)) = false)
    (hlen : MAX_FILE_SIZE < buf.length) :
    transcribe oracle apiKey buf mimeType settings =
      transcribeChunked oracle buf mimeType settings apiKey := by
  unfold transcribe
  rw [hkey]
  simp [hlen]

theorem transcribe_eq_single (oracle : Oracle) (apiKey : Option String)
    (buf : List Nat) (mimeType : String) (settings : TranscriberSettings)
    (hkey : (settings.provider == "openai" && !(optTruthy apiKey)) = false)
    (hlen : buf.length ≤ MAX_FILE_SIZE) :
    transcribe oracle apiKey buf mimeType settings =
      transcribeSingle oracle buf mimeType settings apiKey := by
  unfold transcribe
  rw [hkey]
  simp [Nat.not_lt.mpr hlen]

theorem transcribeChunkedGo_ok (oracle : Oracle) (mimeType : String)
    (settings : TranscriberSettings) (apiKey : Option String)
    (chunks : List (List Nat))
    (hok : ∀ l ∈ chunks,
      (oracle (mkUploadRequest l mimeType settings apiKey)).ok = true) :
    transcribeChunkedGo oracle mimeType settings apiKey chunks =
      (chunks.map (fun l => mkUploadRequest l mimeType settings apiKey),
       .ok (chunks.map fun l =>
         (oracle (mkUploadRequest l mimeType settings apiKey)).text)) := by
  induction chunks with
  | nil => rfl
  | cons c rest ih =>
    have hc := hok c (List.mem_cons_self c rest)
    have hrest := fun l hl => hok l (List.mem_cons_of_mem c hl)
    simp [transcribeChunkedGo, transcribeSingle, hc, ih hrest]

theorem transcribeChunkedGo_fail (oracle : Oracle) (mimeType : String)
    (settings : TranscriberSettings) (apiKey : Option String)
    (chunks : List (List Nat)) (i : Nat) (hi : i < chunks.length)
    (hok : ∀ l ∈ chunks.take i,
      (oracle (mkUploadRequest l mimeType settings apiKey)).ok = true)
    (hfail : (oracle (mkUploadRequest chunks[i] mimeType settings apiKey)).ok
      = false) :
    transcribeChunkedGo oracle mimeType settings apiKey chunks =
      ((chunks.take (i + 1)).map (fun l => mkUploadRequest l mimeType settings apiKey),
       .error (jsOr
         (oracle (mkUploadRequest chunks[i] mimeType settings apiKey)).errorMessage
         ("Transcription failed with status " ++
           toString (oracle (mkUploadRequest chunks[i] mimeType settings apiKey)).status))) := by
  induction chunks generalizing i with
  | nil => simp at hi
  | cons c rest ih =>
    cases i with
    | zero =>
      simp only [List.getElem_cons_zero] at hfail
      simp [transcribeChunkedGo, transcribeSingle, hfail]
    | succ i =>
      have hc := hok c (by simp [List.take_succ_cons])
      have hok2 : ∀ l ∈ rest.take i,
          (oracle (mkUploadRequest l mimeType settings apiKey)).ok = true := by
        intro l hl
        exact hok l (by simp [List.take_succ_cons, hl])
      have hi2 : i < rest.length := by simpa using hi
      have hfail2 :
          (oracle (mkUploadRequest rest[i] mimeType settings apiKey)).ok = false := by
        simpa using hfail
      simp only [transcribeChunkedGo, transcribeSingle, hc, if_true,
        ih i hi2 hok2 hfail2, List.take_succ_cons, List.map_cons,
        List.getElem_cons_succ]
      simp

/-- C1: For every buffer longer than the 24 MiB ceiling (with the API-key
check passing), `transcribe` splits it into ceil(length/ceiling)
contiguous, non-overlapping slices covering the whole buffer in order,
each at most the ceiling and all but the last exactly the ceiling, and
returns the space-joined concatenation of the per-slice single-path
transcriptions in slice order; a 30 MiB buffer yields exactly the chunk
sizes 24 MiB and 6 MiB. -/
theorem C1_transcribe_chunked_partition (oracle : Oracle)
    (apiKey : Option String) (buf : List Nat) (mimeType : String)
    (settings : TranscriberSettings)
    (hkey : (settings.provider == "openai" && !(optTruthy apiKey)) = false)
    (hlen : MAX_FILE_SIZE < buf.length) :
    (splitBuffer buf MAX_FILE_SIZE).length =
      (buf.length + MAX_FILE_SIZE - 1) / MAX_FILE_SIZE ∧
    (splitBuffer buf MAX_FILE_SIZE).flatten = buf ∧
    (∀ l ∈ splitBuffer buf MAX_FILE_SIZE, l.length ≤ MAX_FILE_SIZE) ∧
    (∀ l ∈ (splitBuffer buf MAX_FILE_SIZE).dropLast,
      l.length = MAX_FILE_SIZE) ∧
    ((∀ l ∈ splitBuffer buf MAX_FILE_SIZE,
        (oracle (mkUploadRequest l mimeType settings apiKey)).ok = true) →
      transcribe oracle apiKey buf mimeType settings =
        ((splitBuffer buf MAX_FILE_SIZE).map
          (fun l => mkUploadRequest l mimeType settings apiKey),
         .ok (String.intercalate " " ((splitBuffer buf MAX_FILE_SIZE).map
           fun l => (oracle (mkUploadRequest l mimeType settings apiKey)).text)))) ∧
    (buf.length = 30 * 1024 * 1024 →
      (splitBuffer buf MAX_FILE_SIZE).map List.length =
        [24 * 1024 * 1024, 6 * 1024 * 1024]) := by
  have hcpos : 0 < MAX_FILE_SIZE := by decide
  refine ⟨splitBuffer_length buf MAX_FILE_SIZE hcpos,
    splitBuffer_flatten buf MAX_FILE_SIZE hcpos,
    splitBuffer_mem_le buf MAX_FILE_SIZE hcpos,
    splitBuffer_dropLast buf MAX_FILE_SIZE hcpos, ?_, ?_⟩
  · intro hok
    rw [transcribe_eq_chunked oracle apiKey buf mimeType settings hkey hlen]
    unfold transcribeChunked
    rw [transcribeChunkedGo_ok oracle mimeType settings apiKey _ hok]
  · intro h30
    rw [splitBuffer_cons buf MAX_FILE_SIZE (by omega) (by decide)]
    have hd1 : (buf.drop MAX_FILE_SIZE).length = 6 * 1024 * 1024 := by
      rw [List.length_drop, h30]
      decide
    rw [splitBuffer_cons (buf.drop MAX_FILE_SIZE) MAX_FILE_SIZE
      (by rw [hd1]; decide) (by decide)]
    have hd2 : ((buf.drop MAX_FILE_SIZE).drop MAX_FILE_SIZE).length = 0 := by
      rw [List.length_drop, hd1]
      decide
    rw [List.length_eq_zero.mp hd2, splitBuffer_nil]
    simp only [List.map_cons, List.map_nil, List.length_take,
      List.length_drop, h30, hd1]
    decide

/-- Witness for C1: a concrete 30 MiB buffer, openai provider with a
stored key, and the foo/bar oracle. -/
theorem C1_transcribe_chunked_partition_witness :
    (defaultSettings.provider == "openai" && !(optTruthy (some "sk-test"))) = false ∧
    MAX_FILE_SIZE < (List.replicate (30 * 1024 * 1024) 0).length ∧
    ((splitBuffer (List.replicate (30 * 1024 * 1024) 0) MAX_FILE_SIZE).length =
      ((List.replicate (30 * 1024 * 1024) 0).length + MAX_FILE_SIZE - 1) / MAX_FILE_SIZE ∧
    (splitBuffer (List.replicate (30 * 1024 * 1024) 0) MAX_FILE_SIZE).flatten =
      List.replicate (30 * 1024 * 1024) 0 ∧
    (∀ l ∈ splitBuffer (List.replicate (30 * 1024 * 1024) 0) MAX_FILE_SIZE,
      l.length ≤ MAX_FILE_SIZE) ∧
    (∀ l ∈ (splitBuffer (List.replicate (30 * 1024 * 1024) 0) MAX_FILE_SIZE).dropLast,
      l.length = MAX_FILE_SIZE) ∧
    ((∀ l ∈ splitBuffer (List.replicate (30 * 1024 * 1024) 0) MAX_FILE_SIZE,
        (fooBarOracle (mkUploadRequest l "audio/wav" defaultSettings (some "sk-test"))).ok = true) →
      transcribe fooBarOracle (some "sk-test") (List.replicate (30 * 1024 * 1024) 0)
          "audio/wav" defaultSettings =
        ((splitBuffer (List.replicate (30 * 1024 * 1024) 0) MAX_FILE_SIZE).map
          (fun l => mkUploadRequest l "audio/wav" defaultSettings (some "sk-test")),
         .ok (String.intercalate " "
           ((splitBuffer (List.replicate (30 * 1024 * 1024) 0) MAX_FILE_SIZE).map
             fun l => (fooBarOracle
               (mkUploadRequest l "audio/wav" defaultSettings (some "sk-test"))).text)))) ∧
    ((List.replicate (30 * 1024 * 1024) 0).length = 30 * 1024 * 1024 →
      (splitBuffer (List.replicate (30 * 1024 * 1024) 0) MAX_FILE_SIZE).map List.length =
        [24 * 1024 * 1024, 6 * 1024 * 1024])) :=
  ⟨by decide,
   by rw [List.length_replicate]; decide,
   C1_transcribe_chunked_partition fooBarOracle (some "sk-test")
     (List.replicate (30 * 1024 * 1024) 0) "audio/wav" defaultSettings
     (by decide) (by rw [List.length_replicate]; decide)⟩

/-- C2: For every buffer at most the 24 MiB ceiling (with the API-key
check passing), `transcribe` issues exactly one upstream call (the
request built by the single path) and, when the upstream response is ok,
returns its `text` field unchanged. -/
theorem C2_transcribe_single_call (oracle : Oracle) (apiKey : Option String)
    (buf : List Nat) (mimeType : String) (settings : TranscriberSettings)
    (hkey : (settings.provider == "openai" && !(optTruthy apiKey)) = false)
    (hlen : buf.length ≤ MAX_FILE_SIZE) :
    (transcribe oracle apiKey buf mimeType settings).1 =
      [mkUploadRequest buf mimeType settings apiKey] ∧
    ((oracle (mkUploadRequest buf mimeType settings apiKey)).ok = true →
      (transcribe oracle apiKey buf mimeType settings).2 =
        .ok (oracle (mkUploadRequest buf mimeType settings apiKey)).text) := by
  rw [transcribe_eq_single oracle apiKey buf mimeType settings hkey hlen]
  constructor
  · by_cases hok : (oracle (mkUploadRequest buf mimeType settings apiKey)).ok = true
    · simp [transcribeSingle, hok]
    · simp [transcribeSingle, hok]
  · intro hok
    simp [transcribeSingle, hok]

/-- Witness for C2: a 10-byte audio/wav buffer, openai provider with a
stored key, upstream answering hello world; exactly one request and the
result resolves to hello world. -/
theorem C2_transcribe_single_call_witness :
    (defaultSettings.provider == "openai" && !(optTruthy (some "sk-test"))) = false ∧
    (List.replicate 10 0).length ≤ MAX_FILE_SIZE ∧
    (transcribe helloOracle (some "sk-test") (List.replicate 10 0) "audio/wav"
      defaultSettings).1 =
      [mkUploadRequest (List.replicate 10 0) "audio/wav" defaultSettings
        (some "sk-test")] ∧
    (transcribe helloOracle (some "sk-test") (List.replicate 10 0) "audio/wav"
      defaultSettings).2 = .ok "hello world" :=
  ⟨by decide, by decide,
   (C2_transcribe_single_call helloOracle (some "sk-test") (List.replicate 10 0)
     "audio/wav" defaultSettings (by decide) (by decide)).1,
   (C2_transcribe_single_call helloOracle (some "sk-test") (List.replicate 10 0)
     "audio/wav" defaultSettings (by decide) (by decide)).2 rfl⟩

/-- C3: In the chunked path, if every chunk before index i succeeds and the
chunk at index i fails upstream, the whole call fails with the error of
that chunk, the issued requests are exactly those for chunks 0..i (none beyond
the failing one), and no partial concatenation is returned. -/
theorem C3_chunked_abort_on_failure (oracle : Oracle) (apiKey : Option String)
    (buf : List Nat) (mimeType : String) (settings : TranscriberSettings)
    (i : Nat)
    (hkey : (settings.provider == "openai" && !(optTruthy apiKey)) = false)
    (hlen : MAX_FILE_SIZE < buf.length)
    (hi : i < (splitBuffer buf MAX_FILE_SIZE).length)
    (hok : ∀ l ∈ (splitBuffer buf MAX_FILE_SIZE).take i,
      (oracle (mkUploadRequest l mimeType settings apiKey)).ok = true)
    (hfail : (oracle (mkUploadRequest (splitBuffer buf MAX_FILE_SIZE)[i]
      mimeType settings apiKey)).ok = false) :
    transcribe oracle apiKey buf mimeType settings =
      (((splitBuffer buf MAX_FILE_SIZE).take (i + 1)).map
        (fun l => mkUploadRequest l mimeType settings apiKey),
       .error (jsOr
         (oracle (mkUploadRequest (splitBuffer buf MAX_FILE_SIZE)[i]
           mimeType settings apiKey)).errorMessage
         ("Transcription failed with status " ++
           toString (oracle (mkUploadRequest (splitBuffer buf MAX_FILE_SIZE)[i]
             mimeType settings apiKey)).status))) := by
  rw [transcribe_eq_chunked oracle apiKey buf mimeType settings hkey hlen]
  unfold transcribeChunked
  rw [transcribeChunkedGo_fail oracle mimeType settings apiKey _ i hi hok hfail]

/-- Witness for C3: an oversized buffer whose very first chunk call fails
with boom; the whole call fails with boom after exactly one request. -/
theorem C3_chunked_abort_on_failure_witness :
    (defaultSettings.provider == "openai" && !(optTruthy (some "sk-test"))) = false ∧
    MAX_FILE_SIZE < (List.replicate (24 * 1024 * 1024 + 1) 0).length ∧
    0 < (splitBuffer (List.replicate (24 * 1024 * 1024 + 1) 0) MAX_FILE_SIZE).length ∧
    transcribe boomOracle (some "sk-test")
        (List.replicate (24 * 1024 * 1024 + 1) 0) "audio/wav" defaultSettings =
      (((splitBuffer (List.replicate (24 * 1024 * 1024 + 1) 0) MAX_FILE_SIZE).take 1).map
        (fun l => mkUploadRequest l "audio/wav" defaultSettings (some "sk-test")),
       .error "boom") :=
  have hb : (List.replicate (24 * 1024 * 1024 + 1) (0 : Nat)).length ≠ 0 := by
    rw [List.length_replicate]; decide
  have hi : 0 < (splitBuffer (List.replicate (24 * 1024 * 1024 + 1) 0)
      MAX_FILE_SIZE).length :=
    List.length_pos.mpr (splitBuffer_ne_nil _ MAX_FILE_SIZE hb (by decide))
  ⟨by decide, by rw [List.length_replicate]; decide, hi,
   C3_chunked_abort_on_failure boomOracle (some "sk-test")
     (List.replicate (24 * 1024 * 1024 + 1) 0) "audio/wav" defaultSettings 0
     (by decide) (by rw [List.length_replicate]; decide) hi
     (fun l hl => by rw [List.take_zero] at hl; exact absurd hl (List.not_mem_nil l))
     rfl⟩

/-- C4: With the openai provider selected and no (or an empty) stored
credential, `transcribe` fails with the missing-API-key error and issues
zero outbound requests, for every buffer. -/
theorem C4_missing_key_no_network (oracle : Oracle) (apiKey : Option String)
    (buf : List Nat) (mimeType : String) (settings : TranscriberSettings)
    (hp : settings.provider = "openai") (hk : optTruthy apiKey = false) :
    transcribe oracle apiKey buf mimeType settings =
      ([], .error "Please enter your OpenAI API key in Settings.") := by
  unfold transcribe
  rw [hp, hk]
  simp

/-- Witness for C4: openai provider, no stored key, small buffer. -/
theorem C4_missing_key_no_network_witness :
    defaultSettings.provider = "openai" ∧
    optTruthy none = false ∧
    transcribe helloOracle none (List.replicate 10 0) "audio/wav"
        defaultSettings =
      ([], .error "Please enter your OpenAI API key in Settings.") :=
  ⟨rfl, rfl,
   C4_missing_key_no_network helloOracle none (List.replicate 10 0) "audio/wav"
     defaultSettings rfl rfl⟩

/-- C8: the upload extension is derived by substring match in priority
order mp3/mpeg, webm, wav, ogg, with default mp3. -/
theorem C8_getExtension_priority (m : String) :
    ((includes m "mp3" || includes m "mpeg") = true → getExtension m = "mp3") ∧
    ((includes m "mp3" || includes m "mpeg") = false →
      includes m "webm" = true → getExtension m = "webm") ∧
    ((includes m "mp3" || includes m "mpeg") = false →
      includes m "webm" = false →
      includes m "wav" = true → getExtension m = "wav") ∧
    ((includes m "mp3" || includes m "mpeg") = false →
      includes m "webm" = false → includes m "wav" = false →
      includes m "ogg" = true → getExtension m = "ogg") ∧
    ((includes m "mp3" || includes m "mpeg") = false →
      includes m "webm" = false → includes m "wav" = false →
      includes m "ogg" = false → getExtension m = "mp3") := by
  unfold getExtension
  refine ⟨?_, ?_, ?_, ?_, ?_⟩ <;> intros <;> simp_all

/-- Witness for C8 at concrete MIME strings for the ogg, wav and
default branches. -/
theorem C8_getExtension_priority_witness :
    getExtension "audio/ogg" = "ogg" ∧
    getExtension "audio/wav" = "wav" ∧
    getExtension "application/octet-stream" = "mp3" :=
  ⟨(C8_getExtension_priority "audio/ogg").2.2.2.1
     (by decide) (by decide) (by decide) (by decide),
   (C8_getExtension_priority "audio/wav").2.2.1
     (by decide) (by decide) (by decide),
   (C8_getExtension_priority "application/octet-stream").2.2.2.2
     (by decide) (by decide) (by decide) (by decide)⟩

end WhisperService

theorem take_append_take {α : Type} (A B : List α) (n : Nat) :
    (A ++ B.take n).take n = (A ++ B).take n := by
  rw [List.take_append_eq_append_take, List.take_append_eq_append_take,
    List.take_take]
  congr 1
  rw [Nat.min_eq_left (Nat.sub_le n A.length)]

namespace StorageService

theorem addToHistory_eq_take (history : List HistoryEntry) (entry : HistoryEntry)
    (h : history.length ≤ 10) :
    addToHistory history entry = (entry :: history).take 10 := by
  unfold addToHistory
  rcases Nat.lt_or_ge history.length 10 with hlt | hge
  · rw [if_neg (by simp only [List.length_cons]; omega)]
    rw [List.take_of_length_le (by simp only [List.length_cons]; omega)]
  · have h10 : history.length = 10 := by omega
    rw [if_pos (by simp only [List.length_cons]; omega)]
    rw [List.dropLast_eq_take]
    simp [h10]

theorem foldl_addToHistory (entries : List HistoryEntry)
    (acc : List HistoryEntry) (hacc : acc.length ≤ 10) :
    List.foldl addToHistory acc entries = (entries.reverse ++ acc).take 10 := by
  induction entries generalizing acc with
  | nil => simp [List.take_of_length_le hacc]
  | cons e rest ih =>
    rw [List.foldl_cons,
      ih (addToHistory acc e) (by rw [addToHistory_eq_take acc e hacc]; simp),
      addToHistory_eq_take acc e hacc, List.reverse_cons, List.append_assoc,
      take_append_take]
    rfl

/-- C5: `addToHistory` inserts at the front; starting from a list of at
most 10 entries the result stays at most 10; at exactly 10 it evicts
exactly the tail entry; and inserting any sequence of entries from empty
leaves exactly the (up to) 10 most recent, most-recent first. -/
theorem C5_addToHistory_ring :
    (∀ history entry, (addToHistory history entry).head? = some entry) ∧
    (∀ history entry, history.length ≤ 10 →
      (addToHistory history entry).length ≤ 10) ∧
    (∀ history entry, history.length = 10 →
      addToHistory history entry = entry :: history.dropLast) ∧
    (∀ entries : List HistoryEntry,
      List.foldl addToHistory [] entries = entries.reverse.take 10) := by
  refine ⟨?_, ?_, ?_, ?_⟩
  · intro history entry
    unfold addToHistory
    by_cases h : 10 < (entry :: history).length
    · rw [if_pos h]
      have hne : history ≠ [] := by
        intro h0
        subst h0
        simp at h
      rw [List.dropLast_cons_of_ne_nil hne]
      rfl
    · rw [if_neg h]
      rfl
  · intro history entry h
    rw [addToHistory_eq_take history entry h]
    simp
  · intro history entry h10
    unfold addToHistory
    rw [if_pos (by simp only [List.length_cons]; omega)]
    have hne : history ≠ [] := by
      intro h0
      subst h0
      simp at h10
    rw [List.dropLast_cons_of_ne_nil hne]
  · intro entries
    rw [foldl_addToHistory entries [] (by simp)]
    simp

/-- Witness for C5: a full 10-entry history plus one insert evicts the
tail, and 12 sequential inserts from empty keep the last 10, newest
first. -/
theorem C5_addToHistory_ring_witness :
    (addToHistory (List.replicate 10 (exEntry 0)) (exEntry 1)).head? =
      some (exEntry 1) ∧
    (List.replicate 10 (exEntry 0)).length ≤ 10 ∧
    (addToHistory (List.replicate 10 (exEntry 0)) (exEntry 1)).length ≤ 10 ∧
    (List.replicate 10 (exEntry 0)).length = 10 ∧
    addToHistory (List.replicate 10 (exEntry 0)) (exEntry 1) =
      exEntry 1 :: (List.replicate 10 (exEntry 0)).dropLast ∧
    List.foldl addToHistory [] ((List.range 12).map exEntry) =
      ((List.range 12).map exEntry).reverse.take 10 :=
  ⟨C5_addToHistory_ring.1 (List.replicate 10 (exEntry 0)) (exEntry 1),
   by simp,
   C5_addToHistory_ring.2.1 (List.replicate 10 (exEntry 0)) (exEntry 1)
     (by simp),
   by simp,
   C5_addToHistory_ring.2.2.1 (List.replicate 10 (exEntry 0)) (exEntry 1)
     (by simp),
   C5_addToHistory_ring.2.2.2 ((List.range 12).map exEntry)⟩

/-- C10: `getSettings` returns the defaults overridden field-by-field by
whatever fields are present in storage, so all five fields are always
populated; a missing stored value yields exactly the defaults. -/
theorem C10_getSettings_complete (saved : SavedSettings) :
    (getSettings (some saved)).provider =
      saved.provider.getD defaultSettings.provider ∧
    (getSettings (some saved)).localApiUrl =
      saved.localApiUrl.getD defaultSettings.localApiUrl ∧
    (getSettings (some saved)).language =
      saved.language.getD defaultSettings.language ∧
    (getSettings (some saved)).enableCleanup =
      saved.enableCleanup.getD defaultSettings.enableCleanup ∧
    (getSettings (some saved)).cleanupModel =
      saved.cleanupModel.getD defaultSettings.cleanupModel ∧
    getSettings none = defaultSettings :=
  ⟨rfl, rfl, rfl, rfl, rfl, rfl⟩

end StorageService

namespace AudioRecorderService

/-- C7: after `cancel`, the temporary file no longer exists, no other path
is touched, and the service reports not-recording with zero elapsed time
and nulled process/tempFile state, whatever the prior process state. -/
theorem C7_cancel_resets (s : RecorderState) (fs : FileSystem) (f : String)
    (now : Nat) (hf : s.tempFile = some f) :
    (cancel s fs).1 = cleanupState ∧
    (cancel s fs).2.1 f = false ∧
    (∀ g, g ≠ f → (cancel s fs).2.1 g = fs g) ∧
    getIsRecording (cancel s fs).1 = false ∧
    getElapsedTime (cancel s fs).1 now = 0 ∧
    (cancel s fs).1.process = none ∧
    (cancel s fs).1.tempFile = none := by
  unfold cancel
  rw [hf]
  refine ⟨rfl, ?_, ?_, rfl, rfl, rfl, rfl⟩
  · by_cases hex : fs f
    · simp [hex]
    · simp [hex]
  · intro g hg
    by_cases hex : fs f
    · simp [hex, hg]
    · simp [hex]

/-- Witness for C7 at the concrete active-recording state. -/
theorem C7_cancel_resets_witness :
    wState.tempFile = some "/tmp/rec.wav" ∧
    ((cancel wState wFs).1 = cleanupState ∧
     (cancel wState wFs).2.1 "/tmp/rec.wav" = false ∧
     (∀ g, g ≠ "/tmp/rec.wav" → (cancel wState wFs).2.1 g = wFs g) ∧
     getIsRecording (cancel wState wFs).1 = false ∧
     getElapsedTime (cancel wState wFs).1 99 = 0 ∧
     (cancel wState wFs).1.process = none ∧
     (cancel wState wFs).1.tempFile = none) :=
  ⟨rfl, C7_cancel_resets wState wFs "/tmp/rec.wav" 99 rfl⟩

end AudioRecorderService

namespace VoiceTranscriberPanel

/-- C6: when cleanup is enabled for the openai provider and the cleanup
call fails, `_handleTranscription` still completes with the raw
(uncleaned) transcript, shows only the soft warning (no error popup), and
clears the crash-recovery session snapshot. -/
theorem C6_cleanup_best_effort (settings : TranscriberSettings)
    (whisperProgress : List String) (rawText : String)
    (cleanup : String → Except String String) (err : String)
    (hen : settings.enableCleanup = true)
    (hprov : settings.provider = "openai")
    (hfail : cleanup rawText = .error err) :
    handleTranscription settings whisperProgress (.ok rawText) cleanup =
      { posts := (WebviewMsg.transcriptionStart ::
          WebviewMsg.transcriptionProgress "Transcribing audio..." ::
            whisperProgress.map WebviewMsg.transcriptionProgress) ++
          [WebviewMsg.transcriptionProgress "Cleaning up text...",
           WebviewMsg.transcriptionComplete rawText none]
        warningsShown := ["Text cleanup failed. Showing original transcription."]
        errorsShown := []
        sessionCleared := true } := by
  simp [handleTranscription, hen, hprov, hfail]

/-- Witness for C6: default settings (cleanup enabled, openai provider)
and a cleanup call that fails. -/
theorem C6_cleanup_best_effort_witness :
    defaultSettings.enableCleanup = true ∧
    defaultSettings.provider = "openai" ∧
    (fun _ : String => (.error "CleanupFailed" : Except String String))
      "raw words" = .error "CleanupFailed" ∧
    handleTranscription defaultSettings [] (.ok "raw words")
        (fun _ => .error "CleanupFailed") =
      { posts := (WebviewMsg.transcriptionStart ::
          WebviewMsg.transcriptionProgress "Transcribing audio..." ::
            ([] : List String).map WebviewMsg.transcriptionProgress) ++
          [WebviewMsg.transcriptionProgress "Cleaning up text...",
           WebviewMsg.transcriptionComplete "raw words" none]
        warningsShown := ["Text cleanup failed. Showing original transcription."]
        errorsShown := []
        sessionCleared := true } :=
  ⟨rfl, rfl, rfl,
   C6_cleanup_best_effort defaultSettings [] "raw words"
     (fun _ => .error "CleanupFailed") "CleanupFailed" rfl rfl rfl⟩

end VoiceTranscriberPanel

namespace OpenAIService

theorem natCeil_of_between (m k : ℕ) (h1 : 3 * m ≤ 2 * k)
    (h2 : 2 * k ≤ 3 * m + 1) (hk : 1 ≤ k) :
    ⌈(3 / 2 : ℚ) * m⌉₊ = k := by
  rw [Nat.ceil_eq_iff (by omega)]
  have c1 : (3 * m : ℚ) ≤ 2 * k := by exact_mod_cast h1
  have c2 : (2 * k : ℚ) ≤ 3 * m + 1 := by exact_mod_cast h2
  constructor
  · rw [Nat.cast_sub hk, div_mul_eq_mul_div, lt_div_iff₀ (by norm_num)]
    push_cast
    linarith
  · rw [div_mul_eq_mul_div, div_le_iff₀ (by norm_num)]
    linarith

theorem ceilThreeHalves_eq (n : ℕ) :
    ceilThreeHalves n = ⌈(3 / 2 : ℚ) * n⌉₊ := by
  unfold ceilThreeHalves
  rcases Nat.eq_zero_or_pos n with rfl | hpos
  · norm_num
  · exact (natCeil_of_between n ((3 * n + 1) / 2) (by omega) (by omega)
      (by omega)).symm

/-- C9: with a truthy stored key, `cleanupText` issues exactly the request
with temperature 0.3, token budget ceil(len * 1.5) + 500, the raw
transcript as the user message and the fixed system instruction; on a
successful response the first choice content is returned verbatim. -/
theorem C9_cleanup_request_shape (oracle : ChatOracle) (apiKey : String)
    (rawText : String) (model : String) (hk : apiKey ≠ "") :
    (cleanupText oracle (some apiKey) rawText model).1 =
      some (mkChatRequest apiKey rawText model) ∧
    (mkChatRequest apiKey rawText model).temperature = 3 / 10 ∧
    (mkChatRequest apiKey rawText model).maxTokens =
      ⌈(3 / 2 : ℚ) * rawText.length⌉₊ + 500 ∧
    (mkChatRequest apiKey rawText model).userContent = rawText ∧
    (mkChatRequest apiKey rawText model).systemContent = systemPrompt ∧
    (∀ c cs, (oracle (mkChatRequest apiKey rawText model)).ok = true →
      (oracle (mkChatRequest apiKey rawText model)).choices = c :: cs →
      (cleanupText oracle (some apiKey) rawText model).2 = .ok c.content) := by
  have ht : (!(optTruthy (some apiKey))) = false := by
    simp [optTruthy, hk]
  refine ⟨?_, rfl, ?_, rfl, rfl, ?_⟩
  · unfold cleanupText
    rw [ht]
    by_cases hok : (oracle (mkChatRequest apiKey rawText model)).ok = true
    · rcases hc : (oracle (mkChatRequest apiKey rawText model)).choices with
        _ | ⟨c, cs⟩
      · simp [hok, hc]
      · simp [hok, hc]
    · simp [hok]
  · show ceilThreeHalves rawText.length + 500 = _
    rw [ceilThreeHalves_eq]
  · intro c cs hok hc
    unfold cleanupText
    rw [ht]
    simp [hok, hc]

/-- Witness for C9 at a concrete key, text, model, and an oracle
returning one successful choice. -/
theorem C9_cleanup_request_shape_witness :
    ("sk-test" : String) ≠ "" ∧
    (cleanupText cleanChatOracle (some "sk-test") "hello there" "gpt-4.1-nano").1 =
      some (mkChatRequest "sk-test" "hello there" "gpt-4.1-nano") ∧
    (mkChatRequest "sk-test" "hello there" "gpt-4.1-nano").temperature = 3 / 10 ∧
    (mkChatRequest "sk-test" "hello there" "gpt-4.1-nano").maxTokens =
      ⌈(3 / 2 : ℚ) * (11 : ℕ)⌉₊ + 500 ∧
    (mkChatRequest "sk-test" "hello there" "gpt-4.1-nano").userContent =
      "hello there" ∧
    (mkChatRequest "sk-test" "hello there" "gpt-4.1-nano").systemContent =
      systemPrompt ∧
    (cleanupText cleanChatOracle (some "sk-test") "hello there"
      "gpt-4.1-nano").2 = .ok "clean text" :=
  have h := C9_cleanup_request_shape cleanChatOracle "sk-test" "hello there"
    "gpt-4.1-nano" (by decide)
  ⟨by decide, h.1, h.2.1, h.2.2.1, h.2.2.2.1, h.2.2.2.2.1,
   h.2.2.2.2.2 { content := "clean text" } [] rfl rfl⟩

end OpenAIService
